import Mathlib

/-!
Verification of the figure-generation and Docker session-management layer of
`rxiv-maker` (files `src/rxiv_maker/commands/generate_figures.py` and
`src/rxiv_maker/docker/manager.py`), via a shallow embedding in Lean 4.

Paths are modelled as lists of path components (`List String`), time as `Nat`
seconds, and the Docker backend (container inspect / create outcomes, clock)
as an explicit environment record, so that the stateful Python code becomes
explicit state passing over those records.
-/

namespace RxivMaker

/-! ## FigureGenerator.__init__ (generate_figures.py, lines 27-66) -/

/-- `self.supported_formats = ["png", "svg", "pdf", "eps"]` -/
def supported_formats : List String := ["png", "svg", "pdf", "eps"]

/-- Python's `str.lower()` (character-wise lower-casing). -/
def strToLower (s : String) : String := String.mk (s.data.map Char.toLower)

/-- Python's `str.startswith(pre)`. -/
def strStartsWith (s pre : String) : Bool := pre.data.isPrefixOf s.data

/-- The part of the constructed `FigureGenerator` state that the claims are
about: the stored (lower-cased) output format. -/
structure FigGenInit where
  output_format : String
  deriving Repr, DecidableEq

/-- Embedding of `FigureGenerator.__init__` for a given `output_dir` and
`output_format`.  The constructor lower-cases the format
(`output_format.lower()`), raises `ValueError` when the lower-cased format is
not in `supported_formats`, and only afterwards runs
`self.output_dir.mkdir(parents=True, exist_ok=True)`.  The second component of
the result records the directories created by the call (empty when the
constructor raises, since the `raise` happens before the `mkdir`). -/
def figureGeneratorInit (output_dir : List String) (output_format : String) :
    Except String FigGenInit × List (List String) :=
  let fmt := strToLower output_format
  if fmt ∈ supported_formats then
    (Except.ok { output_format := fmt }, [output_dir])
  else
    (Except.error ("Unsupported format: " ++ fmt), [])

/-- `True` exactly when the constructor call raised `ValueError`. -/
def initRaises (r : Except String FigGenInit × List (List String)) : Bool :=
  match r.1 with
  | Except.error _ => true
  | Except.ok _ => false

/-! ## DockerManager.run_latex_compilation (manager.py, lines 505-538) -/

/-- One external command issued by `run_latex_compilation`: a `pdflatex`
pass or a `bibtex` run. -/
inductive LatexStep where
  | pdflatexPass : LatexStep
  | bibtexRun : LatexStep
  deriving Repr, DecidableEq, BEq

/-- Embedding of `DockerManager.run_latex_compilation`: for `i in
range(passes)` it runs `pdflatex` and appends the result; after the first pass
(`i == 0`), if `tex_file.with_suffix(".bib")` exists it runs `bibtex` and
appends that result.  `bibExists` abstracts the `bib_file.exists()` probe.
The returned list is the `results` list in execution order. -/
def run_latex_compilation (bibExists : Bool) (passes : Nat := 3) : List LatexStep :=
  (List.range passes).flatMap (fun i =>
    [LatexStep.pdflatexPass] ++
      (if i = 0 && bibExists then [LatexStep.bibtexRun] else []))

/-! ## Figure discovery and dispatch (generate_figures.py, lines 68-236, 760-764) -/

/-- The kind of a discovered figure source file (`.mmd`, `.py`, `.R`). -/
inductive FigKind where
  | mermaid : FigKind
  | python : FigKind
  | r : FigKind
  deriving Repr, DecidableEq, BEq

/-- The work items assembled by `_generate_figures_parallel` (lines 193-203):
Mermaid files tagged `"mermaid"` and Python files tagged `"python"` unless
`r_only`, then R files tagged `"r"`, in that order. -/
def workItems (r_only : Bool) (mermaid_files python_files r_files : List String) :
    List (FigKind × String) :=
  (if r_only then [] else mermaid_files.map (fun f => (FigKind.mermaid, f)))
    ++ (if r_only then [] else python_files.map (fun f => (FigKind.python, f)))
    ++ r_files.map (fun f => (FigKind.r, f))

/-- The execution plan chosen by `generate_all_figures`: skip when the figures
directory does not exist, otherwise a parallel batch over a
`ThreadPoolExecutor(max_workers=pool_size)` or a sequential run. -/
inductive ExecPlan where
  | noFiguresDir : ExecPlan
  | parallelPlan (tasks : List (FigKind × String)) (pool_size : Nat) : ExecPlan
  | sequentialPlan (tasks : List (FigKind × String)) : ExecPlan
  deriving Repr, DecidableEq

/-- Embedding of `FigureGenerator.generate_all_figures(parallel, max_workers)`.
When `r_only`, the glob results for mermaid and python are replaced by `[]`
(lines 86-90).  When `parallel` and the total number of discovered files
exceeds 1, it calls `_generate_figures_parallel(..., max_workers)`, which
builds the work items and submits each into
`ThreadPoolExecutor(max_workers=max_workers)` (line 212); otherwise it calls
`_generate_figures_sequential`, whose processing order equals the work-item
order. -/
def generate_all_figures (figuresDirExists r_only : Bool)
    (mermaid_glob python_glob r_glob : List String)
    (parallel : Bool) (max_workers : Nat) : ExecPlan :=
  if !figuresDirExists then ExecPlan.noFiguresDir
  else
    let mermaid_files := if r_only then [] else mermaid_glob
    let python_files := if r_only then [] else python_glob
    let r_files := r_glob
    if parallel &&
        (mermaid_files.length + python_files.length + r_files.length > 1) then
      ExecPlan.parallelPlan (workItems r_only mermaid_files python_files r_files)
        max_workers
    else
      ExecPlan.sequentialPlan (workItems r_only mermaid_files python_files r_files)

/-- The worker-pool size of a plan, when it is a parallel plan. -/
def ExecPlan.poolSize : ExecPlan → Option Nat
  | ExecPlan.parallelPlan _ n => some n
  | _ => none

/-- The tasks of a plan. -/
def ExecPlan.tasks : ExecPlan → List (FigKind × String)
  | ExecPlan.noFiguresDir => []
  | ExecPlan.parallelPlan ts _ => ts
  | ExecPlan.sequentialPlan ts => ts

/-- The clamping applied by the CLI entry point `main` (line 762) before it
calls `generate_all_figures`: `max_workers = max(1, min(args.max_workers, 8))`. -/
def mainMaxWorkers (w : Nat) : Nat := max 1 (min w 8)

/-! ## Per-task failure containment (generate_figures.py, lines 120-236) -/

/-- A console log entry recording the outcome of one figure task: the
"✓ Completed: name" / "✗ Failed: name - e" prints always carry the file name. -/
inductive LogEntry where
  | completed (file : String) : LogEntry
  | failed (file : String) (err : String) : LogEntry
  deriving Repr, DecidableEq, BEq

/-- A rendering behaviour: what `generate_mermaid_figure` /
`generate_python_figure` / `generate_r_figure` does on each file — either
returns normally or raises an exception carrying a message. -/
def RenderFn := FigKind → String → Except String Unit

/-- Embedding of `process_figure` in `_generate_figures_parallel`
(lines 174-191): the call to the per-kind generator is wrapped in
`try/except Exception`, so a raising task yields `(False, name, str(e))`
after logging "✗ Failed: name - e", and a normal task yields
`(True, name, None)` after logging "✓ Completed: name". -/
def process_figure (render : RenderFn) (item : FigKind × String) :
    (Bool × String × Option String) × LogEntry :=
  match render item.1 item.2 with
  | Except.ok _ => ((true, item.2, none), LogEntry.completed item.2)
  | Except.error e => ((false, item.2, some e), LogEntry.failed item.2 e)

/-- Embedding of the batch body of `_generate_figures_parallel`
(lines 212-236): every work item is submitted, every future is awaited, and
the per-item results are collected; no exception escapes the batch (each
task's is caught inside `process_figure`, and `future.result()` is itself
wrapped in `try/except`), so the batch is `Except.ok` of the
per-item outcomes. -/
def generate_figures_parallel (render : RenderFn)
    (items : List (FigKind × String)) :
    Except String (List ((Bool × String × Option String) × LogEntry)) :=
  Except.ok (items.map (process_figure render))

/-- Embedding of `_generate_figures_sequential` (lines 120-156): each of the
three loops wraps its generator call in `try/except Exception`, printing
"✓ Completed" or "✗ Failed: name - e"; the loops over mermaid, python and R
files run in that order, mermaid and python skipped when `r_only`.  The
result is the log, one entry per processed file; no exception escapes. -/
def generate_figures_sequential (render : RenderFn) (r_only : Bool)
    (mermaid_files python_files r_files : List String) :
    Except String (List LogEntry) :=
  Except.ok
    ((workItems r_only mermaid_files python_files r_files).map
      (fun item => (process_figure render item).2))

/-! ## Per-figure output directories (generate_figures.py, lines 241-246,
448-450, 583-585) -/

/-- A file path, with the `pathlib` decomposition of its final component into
stem and suffix kept explicit (`Path.stem` / `Path.suffix`): the file is
`dirs.../stem.ext`. -/
structure FsPath where
  dirs : List String
  stem : String
  ext : String
  deriving Repr, DecidableEq

/-- A discovered figure source file: directory components, stem, extension. -/
structure SourceFile where
  dir : List String
  stem : String
  ext : String
  deriving Repr, DecidableEq

/-- The path of a source file. -/
def SourceFile.path (f : SourceFile) : FsPath :=
  { dirs := f.dir, stem := f.stem, ext := f.ext }

/-- The per-figure output subdirectory
`figure_dir = self.output_dir / <src>.stem` created (with
`mkdir(parents=True, exist_ok=True)`) by all three generators. -/
def figureDir (output_dir : List String) (f : SourceFile) : List String :=
  output_dir ++ [f.stem]

/-! ## FigureGenerator.generate_mermaid_figure (generate_figures.py,
lines 238-397), local engine -/

/-- The environment a `generate_mermaid_figure` call runs against on the
local engine: whether `mmdc` is on the PATH, the return code of the `mmdc`
invocation, the outcome of `_check_cairosvg_availability()` (flag plus
diagnostic message), and whether each `cairosvg.svg2png` / `svg2pdf`
conversion succeeds. -/
structure MermaidEnv where
  mermaidCliAvailable : Bool
  svgReturncode : Int
  cairosvgAvailable : Bool
  cairoError : Option String
  pngConversionOk : Bool
  pdfConversionOk : Bool

/-- The observable outcome of a `generate_mermaid_figure` call: the artifact
files written (component paths), the warning prints, the error prints, and
whether an exception escaped the call. -/
structure MermaidResult where
  artifacts : List FsPath
  warnings : List String
  errors : List String
  raised : Bool
  deriving Repr, DecidableEq

/-- Embedding of `FigureGenerator.generate_mermaid_figure` for the local
engine.  Step 1 writes `figure_dir/<stem>.svg` via `mmdc` (skipped with a
warning when the CLI is missing; an error print and early return when `mmdc`
exits non-zero).  Step 2 checks `_check_cairosvg_availability()`: when
unavailable it prints a "CairoSVG not available … using SVG only" warning and
returns; otherwise it converts the SVG to `png` then `pdf`, each conversion
wrapped in `try/except` so a failure only prints an error.  The whole body is
inside `try/except Exception`, so `raised` is always `false`. -/
def generate_mermaid_figure (env : MermaidEnv) (output_dir : List String)
    (f : SourceFile) : MermaidResult :=
  let fdir := figureDir output_dir f
  if !env.mermaidCliAvailable then
    { artifacts := [], errors := [],
      warnings := ["Skipping " ++ f.stem ++ "." ++ f.ext ++
        ": Mermaid CLI not available"],
      raised := false }
  else if env.svgReturncode ≠ 0 then
    { artifacts := [], warnings := [],
      errors := ["Error generating SVG for " ++ f.stem ++ "." ++ f.ext],
      raised := false }
  else
    let svgFile : FsPath := { dirs := fdir, stem := f.stem, ext := "svg" }
    if !env.cairosvgAvailable then
      { artifacts := [svgFile], errors := [],
        warnings := ["CairoSVG not available for " ++ f.stem ++ "." ++ f.ext ++
          " - using SVG only"],
        raised := false }
    else
      let pngArt : List FsPath :=
        if env.pngConversionOk then [{ dirs := fdir, stem := f.stem, ext := "png" }]
        else []
      let pngErr := if env.pngConversionOk then []
        else ["Error converting SVG to PNG for " ++ f.stem ++ "." ++ f.ext]
      let pdfArt : List FsPath :=
        if env.pdfConversionOk then [{ dirs := fdir, stem := f.stem, ext := "pdf" }]
        else []
      let pdfErr := if env.pdfConversionOk then []
        else ["Error converting SVG to PDF for " ++ f.stem ++ "." ++ f.ext]
      { artifacts := svgFile :: (pngArt ++ pdfArt),
        warnings := [],
        errors := pngErr ++ pdfErr,
        raised := false }

/-! ## FigureGenerator.generate_python_figure / generate_r_figure
(generate_figures.py, lines 445-571, 573-655), local engine -/

/-- Python's `needle in hay` substring test on strings. -/
def strContainsSub (hay needle : String) : Bool :=
  hay.data.tails.any (fun t => needle.data.isPrefixOf t)

/-- The filename filter of the post-run scan (lines 547-554 and 637-645):
keep a file when its stem (lower-cased) contains the script's base name
(lower-cased), or starts with `"figure"`, or starts with `"fig"`. -/
def matchesFigurePattern (base_name stem : String) : Bool :=
  strContainsSub (strToLower stem) (strToLower base_name)
    || strStartsWith (strToLower stem) "figure"
    || strStartsWith (strToLower stem) "fig"

/-- A file found inside the per-figure output subdirectory after the script
ran: `figure_dir/subpath.../stem.ext`. -/
structure GenFile where
  subpath : List String
  stem : String
  ext : String
  deriving Repr, DecidableEq, BEq

/-- The full path of a found file, given the figure directory. -/
def GenFile.pathIn (fdir : List String) (g : GenFile) : FsPath :=
  { dirs := fdir ++ g.subpath, stem := g.stem, ext := g.ext }

/-- The scan of `generate_python_figure` (lines 536-554): `rglob` over the
figure directory for each of `png`, `pdf`, `svg`, `eps`, then the
name-pattern filter against the script's stem. -/
def scanGeneratedPython (base_name : String) (files : List GenFile) :
    List GenFile :=
  (files.filter (fun g => ["png", "pdf", "svg", "eps"].contains g.ext)).filter
    (fun g => matchesFigurePattern base_name g.stem)

/-- The scan of `generate_r_figure` (lines 630-645): same as the Python scan
but with non-recursive `glob`, so only files directly in the figure
directory (`subpath = []`) are found. -/
def scanGeneratedR (base_name : String) (files : List GenFile) : List GenFile :=
  scanGeneratedPython base_name (files.filter (fun g => g.subpath.isEmpty))

/-- The observable outcome of a script-figure generation call:
`cwdUsed = none` means the subprocess ran from the project root (the
`uv run` branch), `some d` that it ran with working directory `d`;
`envOutputDir` is the value of `RXIV_FIGURE_OUTPUT_DIR`; `reported` the
files announced as "Generated figures"; `raised` whether an exception
escaped. -/
structure ScriptRunResult where
  cwdUsed : Option (List String)
  envOutputDir : List String
  reported : List GenFile
  raised : Bool
  deriving Repr, DecidableEq

/-- Embedding of `FigureGenerator.generate_python_figure` on the local
engine.  `figure_dir = output_dir / stem` is created, then the interpreter
runs: in the `uv run` branch from the project root (`cwd=None`, the injected
code `os.chdir`s to `figure_dir`), otherwise with `cwd=figure_dir`; both
branches set `RXIV_FIGURE_OUTPUT_DIR` to `figure_dir`.  On a non-zero exit
the error is printed and nothing is reported; on exit 0 the figure directory
is re-scanned and exactly the scan's files are reported.  The body is inside
`try/except Exception`, so nothing escapes. -/
def generate_python_figure (uvRun : Bool) (returncode : Int)
    (filesAfterRun : List GenFile) (output_dir : List String)
    (f : SourceFile) : ScriptRunResult :=
  let fdir := figureDir output_dir f
  let cwd := if uvRun then none else some fdir
  if returncode ≠ 0 then
    { cwdUsed := cwd, envOutputDir := fdir, reported := [], raised := false }
  else
    { cwdUsed := cwd, envOutputDir := fdir,
      reported := scanGeneratedPython f.stem filesAfterRun, raised := false }

/-- Embedding of `FigureGenerator.generate_r_figure` on the local engine.
When `Rscript` is missing the call warns and returns before creating the
figure directory.  Otherwise `figure_dir = output_dir / stem` is created and
`Rscript <script>` runs with `cwd=figure_dir` and `RXIV_FIGURE_OUTPUT_DIR`
set to `figure_dir`; on exit 0 the figure directory is scanned
(non-recursively) and exactly the scan's files are reported. -/
def generate_r_figure (rscriptAvailable : Bool) (returncode : Int)
    (filesAfterRun : List GenFile) (output_dir : List String)
    (f : SourceFile) : Option ScriptRunResult :=
  if !rscriptAvailable then none
  else
    let fdir := figureDir output_dir f
    if returncode ≠ 0 then
      some { cwdUsed := some fdir, envOutputDir := fdir, reported := [],
             raised := false }
    else
      some { cwdUsed := some fdir, envOutputDir := fdir,
             reported := scanGeneratedR f.stem filesAfterRun, raised := false }

/-! ## Docker session management (manager.py, lines 17-341, 611-618) -/

/-- The outcome of the `docker container inspect … --format {{.State.Running}}`
probe issued by `DockerSession.is_active` for a given container:
exit 0 printing `true`; exit 0 printing something else; a non-zero exit;
or a raised `TimeoutExpired`/`CalledProcessError`. -/
inductive InspectResult where
  | running : InspectResult
  | notRunning : InspectResult
  | cmdError : InspectResult
  | subprocessFail : InspectResult
  deriving Repr, DecidableEq, BEq

/-- The outcome of the detached `docker run … sleep infinity` issued by
`_get_or_create_session`: exit 0 printing the fresh container id, or a
non-zero exit / raised subprocess exception. -/
inductive CreateResult where
  | ok (container_id : Nat) : CreateResult
  | fail : CreateResult
  deriving Repr, DecidableEq, BEq

/-- The Docker backend and clock a session-layer call runs against. -/
structure DockerEnv where
  inspect : Nat → InspectResult
  create : CreateResult
  now : Nat

/-- Embedding of `DockerSession`: container id, image, creation time and the
cached `_active` flag. -/
structure DockerSession where
  container_id : Nat
  image : String
  created_at : Nat
  active_flag : Bool
  deriving Repr, DecidableEq

/-- Embedding of `DockerSession.is_active` (lines 34-61): returns `False`
immediately when `_active` is already cleared; otherwise probes the
container.  Exit 0 with `true` yields `True`; exit 0 with anything else
clears `_active` and yields `False`; a non-zero exit falls through to
`return False` without touching `_active`; a subprocess exception clears
`_active` and yields `False`.  The second component is the (possibly
mutated) session. -/
def DockerSession.is_active (inspect : Nat → InspectResult)
    (s : DockerSession) : Bool × DockerSession :=
  if !s.active_flag then (false, s)
  else
    match inspect s.container_id with
    | InspectResult.running => (true, s)
    | InspectResult.notRunning => (false, { s with active_flag := false })
    | InspectResult.cmdError => (false, s)
    | InspectResult.subprocessFail => (false, { s with active_flag := false })

/-- Embedding of `DockerSession.cleanup` (lines 63-82): a no-op returning
`True` when `_active` is already cleared; otherwise `docker stop` and
`docker rm` run — on a subprocess exception (`stopRmFails`) it returns
`False` leaving `_active` set, else clears `_active` and returns `True`. -/
def DockerSession.cleanup (stopRmFails : Bool) (s : DockerSession) :
    Bool × DockerSession :=
  if !s.active_flag then (true, s)
  else if stopRmFails then (false, s)
  else (true, { s with active_flag := false })

/-- Embedding of the `DockerManager` state the session claims are about. -/
structure DockerManager where
  enable_session_reuse : Bool
  session_timeout : Nat
  active_sessions : List (String × DockerSession)
  deriving Repr, DecidableEq

/-- `DockerManager.__init__` (lines 88-113): session reuse as requested
(default on), `_session_timeout = 300`, no sessions. -/
def DockerManager.init (enable_session_reuse : Bool := true) : DockerManager :=
  { enable_session_reuse := enable_session_reuse,
    session_timeout := 300,
    active_sessions := [] }

/-- The per-entry test of `_cleanup_expired_sessions` (lines 257-261):
`current_time - session.created_at > self._session_timeout or not
session.is_active()` — an entry survives when it is within the timeout AND
its liveness probe passes (short-circuit: the probe only runs for
non-expired entries).  When it survives the stored session is unchanged
(a passing probe never mutates the session). -/
def cleanupKeep (inspect : Nat → InspectResult) (now timeout : Nat)
    (p : String × DockerSession) : Option (String × DockerSession) :=
  if now - p.2.created_at > timeout then none
  else
    let r := DockerSession.is_active inspect p.2
    if r.1 then some (p.1, r.2) else none

/-- Embedding of `DockerManager._cleanup_expired_sessions` (lines 252-266):
every expired-or-dead entry has `session.cleanup()` called on it and is
deleted from `_active_sessions`.  Returns the new manager together with the
removed entries after their `cleanup()` call (the `stopRmFails` flag models
the `docker stop`/`docker rm` subprocess outcome). -/
def cleanup_expired_sessions (inspect : Nat → InspectResult)
    (stopRmFails : Bool) (now : Nat) (m : DockerManager) :
    DockerManager × List (String × DockerSession) :=
  ({ m with active_sessions :=
      m.active_sessions.filterMap (cleanupKeep inspect now m.session_timeout) },
   (m.active_sessions.filter
      (fun p => (cleanupKeep inspect now m.session_timeout p).isNone)).map
     (fun p => (p.1, (DockerSession.cleanup stopRmFails p.2).2)))

/-- Python `dict` deletion `del self._active_sessions[key]`. -/
def removeKey (key : String) (l : List (String × DockerSession)) :
    List (String × DockerSession) :=
  l.filter (fun p => p.1 ≠ key)

/-- Python `dict` assignment `self._active_sessions[key] = s`: replaces in
place when the key is present, otherwise appends at the end. -/
def dictInsert (key : String) (s : DockerSession)
    (l : List (String × DockerSession)) : List (String × DockerSession) :=
  if l.any (fun p => p.1 = key) then
    l.map (fun p => if p.1 = key then (key, s) else p)
  else l ++ [(key, s)]

/-- The session-creation tail of `_get_or_create_session` (lines 229-250):
`docker run -d … sleep infinity`; on exit 0 a fresh `DockerSession` is
stored under the key and returned, on failure (non-zero exit or subprocess
exception) the call returns `None`. -/
def createNewSession (env : DockerEnv) (key image : String)
    (m : DockerManager) : Option DockerSession × DockerManager :=
  match env.create with
  | CreateResult.ok cid =>
      let s : DockerSession :=
        { container_id := cid, image := image, created_at := env.now,
          active_flag := true }
      (some s, { m with active_sessions := dictInsert key s m.active_sessions })
  | CreateResult.fail => (none, m)

/-- Embedding of `DockerManager._get_or_create_session` (lines 210-250):
returns `None` when session reuse is disabled; otherwise cleans up expired
sessions, returns the stored session for the key when its liveness probe
passes, deletes it and falls through to creation when the probe fails, and
creates a fresh detached container otherwise. -/
def get_or_create_session (env : DockerEnv) (stopRmFails : Bool)
    (key image : String) (m : DockerManager) :
    Option DockerSession × DockerManager :=
  if !m.enable_session_reuse then (none, m)
  else
    let m1 := (cleanup_expired_sessions env.inspect stopRmFails env.now m).1
    match m1.active_sessions.lookup key with
    | some s =>
        let r := DockerSession.is_active env.inspect s
        if r.1 then
          (some r.2, { m1 with active_sessions :=
            (m1.active_sessions.map
              (fun p => if p.1 = key then (key, r.2) else p)) })
        else
          createNewSession env key image
            { m1 with active_sessions := removeKey key m1.active_sessions }
    | none => createNewSession env key image m1

/-- How `run_command` (lines 268-341) executes: `docker exec` inside a live
session's container, or an ad hoc `docker run` container built by
`_build_docker_command`. -/
inductive ExecMode where
  | execInSession (container_id : Nat) : ExecMode
  | adHoc : ExecMode
  deriving Repr, DecidableEq

/-- Embedding of the dispatch of `DockerManager.run_command`: with a
`session_key` it tries `_get_or_create_session`; when that yields a session
whose `is_active()` re-check passes, the command runs via `docker exec` in
that container, otherwise (no key, no session, or a failing re-check) a
fresh ad hoc container is used. -/
def run_command_mode (env : DockerEnv) (stopRmFails : Bool)
    (session_key : Option String) (image : String) (m : DockerManager) :
    ExecMode × DockerManager :=
  match session_key with
  | none => (ExecMode.adHoc, m)
  | some key =>
      let r := get_or_create_session env stopRmFails key image m
      match r.1 with
      | none => (ExecMode.adHoc, r.2)
      | some s =>
          let chk := DockerSession.is_active env.inspect s
          if chk.1 then (ExecMode.execInSession s.container_id, r.2)
          else
            (ExecMode.adHoc, { r.2 with active_sessions :=
              (r.2.active_sessions.map
                (fun p => if p.1 = key then (key, chk.2) else p)) })

/-- Embedding of `DockerManager.enable_aggressive_cleanup` (lines 611-618). -/
def enable_aggressive_cleanup (enabled : Bool) (m : DockerManager) :
    DockerManager :=
  if enabled then
    { m with session_timeout := 60, enable_session_reuse := false }
  else
    { m with session_timeout := 300, enable_session_reuse := true }

/-! ## Helper lemmas -/

theorem lookup_eq_none_iff {α β : Type} [BEq α] [LawfulBEq α]
    {l : List (α × β)} {k : α} :
    List.lookup k l = none ↔ ∀ p ∈ l, p.1 ≠ k := by
  induction l with
  | nil => simp
  | cons p t ih =>
      obtain ⟨a, b⟩ := p
      rw [List.lookup_cons]
      cases hk : k == a with
      | true =>
          simp only [hk]
          constructor
          · intro h; exact absurd h (by simp)
          · intro h
            exact absurd (eq_of_beq hk).symm (h (a, b) (by simp))
      | false =>
          simp only [hk, ih]
          constructor
          · intro h
            intro q hq
            rcases List.mem_cons.mp hq with hq | hq
            · subst hq
              intro hcontra
              have ha : a = k := hcontra
              rw [ha] at hk
              simp at hk
            · exact h q hq
          · intro h q hq
            exact h q (List.mem_cons_of_mem _ hq)

theorem lookup_filter_none {α β : Type} [BEq α] [LawfulBEq α]
    (q : α × β → Bool) {l : List (α × β)} {k : α}
    (h : List.lookup k l = none) :
    List.lookup k (l.filter q) = none := by
  rw [lookup_eq_none_iff] at h ⊢
  intro p hp
  exact h p (List.mem_of_mem_filter hp)

theorem lookup_append_of_none {α β : Type} [BEq α]
    {l₁ : List (α × β)} (l₂ : List (α × β)) {k : α}
    (h : List.lookup k l₁ = none) :
    List.lookup k (l₁ ++ l₂) = List.lookup k l₂ := by
  induction l₁ with
  | nil => simp
  | cons p t ih =>
      obtain ⟨a, b⟩ := p
      rw [List.lookup_cons] at h
      cases hk : k == a with
      | true => rw [hk] at h; exact absurd h (by simp)
      | false =>
          rw [hk] at h
          rw [List.cons_append, List.lookup_cons, hk]
          exact ih h

theorem any_key_eq_false_of_lookup_none {β : Type}
    {l : List (String × β)} {k : String}
    (h : List.lookup k l = none) :
    l.any (fun p => p.1 = k) = false := by
  rw [lookup_eq_none_iff] at h
  rw [List.any_eq_false]
  intro p hp
  simpa using h p hp

/-- A passing liveness probe never mutates the session. -/
theorem is_active_true_eq {ins : Nat → InspectResult} {s : DockerSession}
    (h : (DockerSession.is_active ins s).1 = true) :
    (DockerSession.is_active ins s).2 = s := by
  unfold DockerSession.is_active at h ⊢
  cases hf : s.active_flag with
  | false => simp [hf] at h
  | true =>
      simp only [hf, Bool.not_true]
      cases hi : ins s.container_id <;> simp [hf, hi] at h ⊢

/-- `cleanupKeep` keeps an entry unchanged, and keeps it exactly when the
entry is within the timeout and its liveness probe passes. -/
theorem cleanupKeep_eq_guard (ins : Nat → InspectResult) (now timeout : Nat)
    (p : String × DockerSession) :
    cleanupKeep ins now timeout p =
      if (decide (now - p.2.created_at ≤ timeout) &&
          (DockerSession.is_active ins p.2).1) = true then some p else none := by
  unfold cleanupKeep
  by_cases hexp : now - p.2.created_at > timeout
  · simp [hexp, Nat.not_le.mpr hexp]
  · have hle : now - p.2.created_at ≤ timeout := Nat.not_lt.mp hexp
    simp only [if_neg hexp, decide_eq_true hle, Bool.true_and]
    cases ha : (DockerSession.is_active ins p.2).1 with
    | false => simp [ha]
    | true => simp [ha, is_active_true_eq ha]

theorem filterMap_guard_eq_filter {α : Type} (c : α → Bool) (l : List α) :
    l.filterMap (fun a => if c a = true then some a else none) = l.filter c := by
  induction l with
  | nil => simp
  | cons a t ih =>
      rw [List.filterMap_cons, List.filter_cons]
      cases hc : c a <;> simp [hc, ih]

theorem cleanupList_eq_filter (ins : Nat → InspectResult) (now timeout : Nat)
    (l : List (String × DockerSession)) :
    l.filterMap (cleanupKeep ins now timeout) =
      l.filter (fun p => decide (now - p.2.created_at ≤ timeout) &&
        (DockerSession.is_active ins p.2).1) := by
  rw [show cleanupKeep ins now timeout =
      (fun p => if ((fun q => decide (now - q.2.created_at ≤ timeout) &&
        (DockerSession.is_active ins q.2).1) p) = true then some p else none)
    from funext (cleanupKeep_eq_guard ins now timeout)]
  exact filterMap_guard_eq_filter _ _

/-- The session table after `_cleanup_expired_sessions`: exactly the entries
within the timeout whose liveness probe passes, unchanged and in order. -/
theorem cleanup_sessions_as_filter (ins : Nat → InspectResult) (srf : Bool)
    (now : Nat) (m : DockerManager) :
    (cleanup_expired_sessions ins srf now m).1.active_sessions =
      m.active_sessions.filter
        (fun p => decide (now - p.2.created_at ≤ m.session_timeout) &&
          (DockerSession.is_active ins p.2).1) := by
  exact cleanupList_eq_filter ins now m.session_timeout m.active_sessions

/-! ## Claim theorems -/

/-- C10: the `FigureGenerator` constructor raises `ValueError` iff the
lower-cased `output_format` is not one of `png`, `svg`, `pdf`, `eps`; when it
does not raise, the stored format is the lower-cased input and the output
directory has been created (with parents); when it does raise, no output
directory has been created. -/
theorem C10_init_validation (output_dir : List String) (fmt : String) :
    (initRaises (figureGeneratorInit output_dir fmt) = true ↔
      strToLower fmt ∉ supported_formats) ∧
    (initRaises (figureGeneratorInit output_dir fmt) = false →
      (figureGeneratorInit output_dir fmt).1 =
        Except.ok { output_format := strToLower fmt } ∧
      (figureGeneratorInit output_dir fmt).2 = [output_dir]) ∧
    (initRaises (figureGeneratorInit output_dir fmt) = true →
      (figureGeneratorInit output_dir fmt).2 = []) := by
  unfold figureGeneratorInit initRaises
  by_cases h : strToLower fmt ∈ supported_formats <;> simp [h]

/-- Witness for C10 at `output_dir = ["out"]`, `fmt = "PNG"` (does not
raise, stores `"png"`, creates the directory) and at `fmt = "jpg"`
(raises, creates nothing). -/
theorem C10_init_validation_witness :
    (initRaises (figureGeneratorInit ["out"] "PNG") = false ∧
      (figureGeneratorInit ["out"] "PNG").1 =
        Except.ok { output_format := strToLower "PNG" } ∧
      (figureGeneratorInit ["out"] "PNG").2 =
        [["out"]]) ∧
    (initRaises (figureGeneratorInit ["out"] "jpg") = true ∧
      (figureGeneratorInit ["out"] "jpg").2 = []) := by
  refine ⟨⟨by decide, ?_⟩, ?_⟩
  · exact (C10_init_validation ["out"] "PNG").2.1 (by decide)
  · have h2 := (C10_init_validation ["out"] "jpg").2.2 (by decide)
    exact ⟨by decide, h2⟩

/-- C5: with the default pass count, `run_latex_compilation` performs exactly
3 `pdflatex` passes, runs `bibtex` exactly once — immediately after the first
pass — iff a `.bib` file with the same stem exists, and the returned list is
one result per pass plus the single bibliography result, in execution
order. -/
theorem C5_latex_passes (bibExists : Bool) :
    ((run_latex_compilation bibExists).count LatexStep.pdflatexPass = 3) ∧
    ((run_latex_compilation bibExists).count LatexStep.bibtexRun =
      if bibExists then 1 else 0) ∧
    (run_latex_compilation bibExists =
      if bibExists then
        [LatexStep.pdflatexPass, LatexStep.bibtexRun, LatexStep.pdflatexPass,
         LatexStep.pdflatexPass]
      else
        [LatexStep.pdflatexPass, LatexStep.pdflatexPass,
         LatexStep.pdflatexPass]) := by
  cases bibExists <;> decide

/-- C4 counterexample: called directly with `max_workers = 20` (and two
discovered files, `parallel = true`), `generate_all_figures` dispatches into
a pool of size 20, not `max(1, min(20, 8)) = 8` as the claim states. -/
theorem C4_counterexample :
    (generate_all_figures true false ["a.mmd"]
      ["b.py"] [] true 20).poolSize = some 20 ∧
    mainMaxWorkers 20 = 8 ∧ (20 : Nat) ≠ 8 := by
  decide

/-- C4 (amended): when `parallel` and more than one figure file is
discovered, `generate_all_figures` dispatches one task per discovered file
into a worker pool whose size is exactly the `max_workers` argument it was
given; otherwise all discovered files are processed sequentially.  The
clamping `max(1, min(w, 8))` is applied by the CLI entry point `main` before
calling `generate_all_figures`, so a CLI invocation's pool size is
`max(1, min(w, 8))`. -/
theorem workItems_length (ro : Bool) (m p r : List String) :
    (workItems ro m p r).length =
      (if ro then [] else m).length + (if ro then [] else p).length
        + r.length := by
  cases ro <;> simp [workItems] <;> omega

theorem generate_all_figures_tasks (ro : Bool) (mmd py r : List String)
    (parallel : Bool) (w : Nat) :
    (generate_all_figures true ro mmd py r parallel w).tasks =
      workItems ro (if ro then [] else mmd) (if ro then [] else py) r := by
  unfold generate_all_figures
  simp only [show (!true) = false from rfl, Bool.false_eq_true, if_false]
  split <;> split <;> simp [ExecPlan.tasks]

theorem C4_dispatch (r_only : Bool) (mmd py r : List String)
    (parallel : Bool) (w : Nat) :
    (parallel = true →
      (if r_only then [] else mmd).length + (if r_only then [] else py).length
          + r.length > 1 →
      generate_all_figures true r_only mmd py r parallel w =
        ExecPlan.parallelPlan
          (workItems r_only (if r_only then [] else mmd)
            (if r_only then [] else py) r) w) ∧
    ((parallel = false ∨
      (if r_only then [] else mmd).length + (if r_only then [] else py).length
          + r.length ≤ 1) →
      generate_all_figures true r_only mmd py r parallel w =
        ExecPlan.sequentialPlan
          (workItems r_only (if r_only then [] else mmd)
            (if r_only then [] else py) r)) ∧
    ((generate_all_figures true r_only mmd py r parallel w).tasks.length =
      (if r_only then [] else mmd).length + (if r_only then [] else py).length
        + r.length) ∧
    ((generate_all_figures true r_only mmd py r parallel
        (mainMaxWorkers w)).poolSize = none ∨
     (generate_all_figures true r_only mmd py r parallel
        (mainMaxWorkers w)).poolSize = some (max 1 (min w 8))) := by
  refine ⟨?_, ?_, ?_, ?_⟩
  · intro hp hn
    unfold generate_all_figures
    simp [hp, hn]
  · intro h
    unfold generate_all_figures
    rcases h with h | h
    · simp [h]
    · simp [Nat.not_lt.mpr h]
  · rw [generate_all_figures_tasks]
    cases r_only <;> simp [workItems] <;> omega
  · unfold generate_all_figures mainMaxWorkers
    simp only [show (!true) = false from rfl, Bool.false_eq_true, if_false]
    split <;> split <;> first
      | exact Or.inr rfl
      | exact Or.inl rfl

/-- Witness for C4 (amended): three discovered files, `parallel = true`,
`max_workers = 4`: one task per file in a pool of size 4; and with the CLI
clamp at `w = 20` the pool size is 8. -/
theorem C4_dispatch_witness :
    generate_all_figures true false ["a.mmd"]
        ["b.py"] ["c.R"] true 4 =
      ExecPlan.parallelPlan
        [(FigKind.mermaid, "a.mmd"),
         (FigKind.python, "b.py"),
         (FigKind.r, "c.R")] 4 ∧
    (generate_all_figures true false ["a.mmd"]
        ["b.py"] [] true (mainMaxWorkers 20)).poolSize =
      some 8 := by
  constructor
  · have h := (C4_dispatch false ["a.mmd"]
      ["b.py"] ["c.R"] true 4).1
      (by decide) (by decide)
    rw [h]
    decide
  · decide

/-- C3: when the intermediate SVG generation succeeds and CairoSVG is
reported unavailable, `generate_mermaid_figure` returns normally without
raising, has produced exactly the intermediate SVG artifact (no PNG, no
PDF), and emits a warning rather than an error. -/
theorem C3_svg_only_degradation (env : MermaidEnv) (output_dir : List String)
    (f : SourceFile)
    (hcli : env.mermaidCliAvailable = true)
    (hsvg : env.svgReturncode = 0)
    (hcairo : env.cairosvgAvailable = false) :
    (generate_mermaid_figure env output_dir f).artifacts =
      [{ dirs := figureDir output_dir f, stem := f.stem, ext := "svg" }] ∧
    (generate_mermaid_figure env output_dir f).warnings =
      ["CairoSVG not available for " ++ f.stem ++ "." ++ f.ext ++
        " - using SVG only"] ∧
    (generate_mermaid_figure env output_dir f).errors = [] ∧
    (generate_mermaid_figure env output_dir f).raised = false := by
  unfold generate_mermaid_figure
  simp [hcli, hsvg, hcairo]

/-- Witness for C3: a concrete environment with `mmdc` available, SVG
generation exiting 0, and CairoSVG unavailable. -/
theorem C3_svg_only_degradation_witness :
    (generate_mermaid_figure
        { mermaidCliAvailable := true, svgReturncode := 0,
          cairosvgAvailable := false,
          cairoError := some "CairoSVG package not installed",
          pngConversionOk := false, pdfConversionOk := false }
        ["FIGURES"]
        { dir := ["FIGURES"], stem := "Fig1", ext := "mmd"
          }).artifacts =
      [{ dirs := ["FIGURES", "Fig1"], stem := "Fig1",
         ext := "svg" }] ∧
    (generate_mermaid_figure
        { mermaidCliAvailable := true, svgReturncode := 0,
          cairosvgAvailable := false,
          cairoError := some "CairoSVG package not installed",
          pngConversionOk := false, pdfConversionOk := false }
        ["FIGURES"]
        { dir := ["FIGURES"], stem := "Fig1", ext := "mmd"
          }).raised = false := by
  have h := C3_svg_only_degradation
    { mermaidCliAvailable := true, svgReturncode := 0,
      cairosvgAvailable := false,
      cairoError := some "CairoSVG package not installed",
      pngConversionOk := false, pdfConversionOk := false }
    ["FIGURES"]
    { dir := ["FIGURES"], stem := "Fig1", ext := "mmd" }
    rfl rfl rfl
  exact ⟨h.1, h.2.2.2⟩

/-- C2: in every figure-rendering batch (parallel or sequential), a raising
task is caught at its boundary and logged with that file's name; every other
task is still processed (one outcome per work item, in order); a task's
outcome depends only on its own rendering, so failing tasks never cancel
siblings; and the batch call itself never raises. -/
theorem C2_failure_containment (render render2 : RenderFn)
    (items : List (FigKind × String)) (r_only : Bool)
    (mmd py r : List String) :
    (∃ out, generate_figures_parallel render items = Except.ok out ∧
      out.length = items.length) ∧
    (∃ log, generate_figures_sequential render r_only mmd py r =
        Except.ok log ∧
      log.length = (workItems r_only mmd py r).length) ∧
    (∀ item ∈ items, ∀ e, render item.1 item.2 = Except.error e →
      ((false, item.2, some e), LogEntry.failed item.2 e) ∈
        items.map (process_figure render)) ∧
    (∀ item ∈ items, render item.1 item.2 = Except.ok () →
      ((true, item.2, none), LogEntry.completed item.2) ∈
        items.map (process_figure render)) ∧
    (∀ i, ∀ hi : i < items.length,
      render (items.get ⟨i, hi⟩).1 (items.get ⟨i, hi⟩).2 =
        render2 (items.get ⟨i, hi⟩).1 (items.get ⟨i, hi⟩).2 →
      (items.map (process_figure render)).get
          ⟨i, by simpa using hi⟩ =
        (items.map (process_figure render2)).get
          ⟨i, by simpa using hi⟩) := by
  refine ⟨⟨items.map (process_figure render), rfl, by simp⟩,
    ⟨(workItems r_only mmd py r).map (fun it => (process_figure render it).2),
      rfl, by simp⟩, ?_, ?_, ?_⟩
  · intro item hmem e herr
    have : process_figure render item =
        ((false, item.2, some e), LogEntry.failed item.2 e) := by
      unfold process_figure
      rw [herr]
    exact this ▸ List.mem_map_of_mem (process_figure render) hmem
  · intro item hmem hok
    have : process_figure render item =
        ((true, item.2, none), LogEntry.completed item.2) := by
      unfold process_figure
      rw [hok]
    exact this ▸ List.mem_map_of_mem (process_figure render) hmem
  · intro i hi hagree
    rw [List.get_map, List.get_map]
    unfold process_figure
    rw [hagree]

/-- Witness for C2: a three-item batch whose middle task raises; the batch
returns normally with three outcomes. -/
theorem C2_failure_containment_witness :
    (∃ out, generate_figures_parallel
        (fun _ f => if f = "b.py" then Except.error "boom" else Except.ok ())
        [(FigKind.mermaid, "a.mmd"),
         (FigKind.python, "b.py"),
         (FigKind.r, "c.R")] = Except.ok out ∧
      out.length = 3) ∧
    ((false, "b.py", some "boom"),
        LogEntry.failed ("b.py") "boom") ∈
      [(FigKind.mermaid, "a.mmd"),
       (FigKind.python, "b.py"),
       (FigKind.r, "c.R")].map
        (process_figure
          (fun _ f => if f = "b.py" then Except.error "boom" else Except.ok ())) := by
  have h := C2_failure_containment
    (fun _ f => if f = "b.py" then Except.error "boom" else Except.ok ())
    (fun _ _ => Except.ok ())
    [(FigKind.mermaid, "a.mmd"),
     (FigKind.python, "b.py"),
     (FigKind.r, "c.R")] false [] [] []
  refine ⟨h.1, ?_⟩
  exact h.2.2.1 (FigKind.python, "b.py") (by simp) "boom"
    (by simp)

/-- C6 counterexample: `Fig1.py` and `Fig1.R` are two distinct source files
in the same figures directory, yet their per-figure output subdirectories
coincide (`output_dir/Fig1`), so output subdirectories of two distinct
source files can collide. -/
theorem C6_counterexample :
    ({ dir := ["FIGURES"], stem := "Fig1", ext := "py" } : SourceFile) ≠
      { dir := ["FIGURES"], stem := "Fig1", ext := "R" } ∧
    figureDir ["FIGURES"] { dir := ["FIGURES"], stem := "Fig1", ext := "py" } =
      figureDir ["FIGURES"] { dir := ["FIGURES"], stem := "Fig1", ext := "R"
        } := by
  constructor
  · intro h
    exact absurd (congrArg SourceFile.ext h) (by decide)
  · rfl

/-- Every artifact written by `generate_mermaid_figure` sits directly in the
per-figure output subdirectory, is named after the source stem, and has one
of the extensions `svg`, `png`, `pdf`. -/
theorem mermaid_artifact_mem (env : MermaidEnv) (od : List String)
    (f : SourceFile) :
    ∀ a ∈ (generate_mermaid_figure env od f).artifacts,
      a.dirs = figureDir od f ∧ a.stem = f.stem ∧
        a.ext ∈ (["svg", "png", "pdf"] : List String) := by
  intro a ha
  simp only [generate_mermaid_figure] at ha
  split at ha
  · simp at ha
  · split at ha
    · simp at ha
    · split at ha
      · simp at ha
        subst ha
        exact ⟨rfl, rfl, by simp⟩
      · simp only [List.mem_cons, List.mem_append] at ha
        rcases ha with ha | ha | ha
        · subst ha
          exact ⟨rfl, rfl, by simp⟩
        · split at ha <;> simp at ha
          subst ha
          exact ⟨rfl, rfl, by simp⟩
        · split at ha <;> simp at ha
          subst ha
          exact ⟨rfl, rfl, by simp⟩

/-- C6 (amended): all artifacts of `generate_mermaid_figure` and all files
reported by `generate_python_figure` / `generate_r_figure` lie under the
per-figure output subdirectory `output_dir/<stem>`; no generator ever writes
to the source file's path (discovery and generation never mutate sources);
and the output subdirectories of two source files with distinct stems never
collide — but two distinct source files sharing a stem (e.g. `Fig1.py` and
`Fig1.R`) share one output subdirectory. -/
theorem C6_output_isolation (output_dir : List String) (f g : SourceFile)
    (env : MermaidEnv) (uv rAvail : Bool) (rc : Int) (files : List GenFile)
    (hstem : f.stem ≠ g.stem)
    (hext : f.ext ∉ ["png", "pdf", "svg", "eps"]) :
    (figureDir output_dir f ≠ figureDir output_dir g) ∧
    (∀ a ∈ (generate_mermaid_figure env output_dir f).artifacts,
      (∃ t, figureDir output_dir f ++ t = a.dirs) ∧ a ≠ f.path) ∧
    (∀ gf ∈ (generate_python_figure uv rc files output_dir f).reported,
      (∃ t, figureDir output_dir f ++ t =
        (gf.pathIn (figureDir output_dir f)).dirs) ∧
      gf.pathIn (figureDir output_dir f) ≠ f.path) ∧
    (∀ res, generate_r_figure rAvail rc files output_dir f = some res →
      ∀ gf ∈ res.reported,
        (∃ t, figureDir output_dir f ++ t =
          (gf.pathIn (figureDir output_dir f)).dirs) ∧
        gf.pathIn (figureDir output_dir f) ≠ f.path) := by
  have hscan : ∀ (l : List GenFile) (gf : GenFile) (base : String),
      gf ∈ scanGeneratedPython base l →
      gf.ext ∈ (["png", "pdf", "svg", "eps"] : List String) := by
    intro l gf base hmem
    have h1 := List.mem_of_mem_filter hmem
    have h2 := List.of_mem_filter h1
    simpa using h2
  have hne : ∀ gf : GenFile,
      gf.ext ∈ (["png", "pdf", "svg", "eps"] : List String) →
      gf.pathIn (figureDir output_dir f) ≠ f.path := by
    intro gf hgext hcontra
    have : gf.ext = f.ext := congrArg FsPath.ext hcontra
    rw [this] at hgext
    exact hext hgext
  refine ⟨?_, ?_, ?_, ?_⟩
  · intro hcontra
    unfold figureDir at hcontra
    have := List.append_cancel_left hcontra
    simp at this
    exact hstem this
  · intro a ha
    obtain ⟨hd, hs, he⟩ := mermaid_artifact_mem env output_dir f a ha
    refine ⟨⟨[], by simp [hd]⟩, ?_⟩
    intro hcontra
    have hae : a.ext = f.ext := congrArg FsPath.ext hcontra
    rw [hae] at he
    apply hext
    simp only [List.mem_cons, List.mem_singleton] at he ⊢
    tauto
  · intro gf hmem
    simp only [generate_python_figure] at hmem
    split at hmem
    · simp at hmem
    · simp only at hmem
      have hgext := hscan files gf f.stem hmem
      exact ⟨⟨gf.subpath, by simp [GenFile.pathIn]⟩, hne gf hgext⟩
  · intro res hres gf hmem
    simp only [generate_r_figure] at hres
    split at hres
    · simp at hres
    · split at hres
      · injection hres with h
        subst h
        simp at hmem
      · injection hres with h
        subst h
        have hgext := hscan (files.filter (fun q => q.subpath.isEmpty)) gf
          f.stem (by simpa [scanGeneratedR] using hmem)
        exact ⟨⟨gf.subpath, by simp [GenFile.pathIn]⟩, hne gf hgext⟩

/-- Witness for C6 (amended) at two concrete source files with distinct
stems: their output subdirectories differ, and a concrete mermaid artifact
lies under the per-figure subdirectory without touching the source path. -/
theorem C6_output_isolation_witness :
    figureDir ["FIGURES"] { dir := ["FIGURES"], stem := "Cell", ext := "py" } ≠
      figureDir ["FIGURES"] { dir := ["FIGURES"], stem := "Flow", ext := "mmd"
        } := by
  exact (C6_output_isolation ["FIGURES"]
    { dir := ["FIGURES"], stem := "Cell", ext := "py" }
    { dir := ["FIGURES"], stem := "Flow", ext := "mmd" }
    { mermaidCliAvailable := true, svgReturncode := 0,
      cairosvgAvailable := true, cairoError := none,
      pngConversionOk := true, pdfConversionOk := true }
    false true 0 [] (by decide) (by decide)).1

/-- C9 counterexample: for the script `FIGURES/plot.py` with
`output_dir = ["out"]`, the interpreter's working directory is the
per-figure output subdirectory `out/plot`, not the script's containing
directory `FIGURES` — refuting the claim's "script's containing directory
as working directory". -/
theorem C9_counterexample :
    (generate_python_figure false 0 [] ["out"]
        { dir := ["FIGURES"], stem := "plot", ext := "py" }).cwdUsed =
      some ["out", "plot"] ∧
    (["out", "plot"] : List String) ≠
      ({ dir := ["FIGURES"], stem := "plot", ext := "py" } : SourceFile).dir
      := by
  constructor
  · rfl
  · intro h
    have := congrArg (fun l => l.length) h
    simp at this

/-- C9 (amended): for every Python or R figure script (local engine),
rendering invokes the external interpreter with the per-figure output
subdirectory `output_dir/<stem>` as working directory (not the script's
containing directory; in the `uv run` branch the subprocess starts at the
project root and the injected code chdirs to that subdirectory) and with
`RXIV_FIGURE_OUTPUT_DIR` pointing at that same subdirectory; after a zero
exit code it re-scans that subdirectory for `png`/`pdf`/`svg`/`eps` files
whose stem contains the script's base name or starts with `"figure"` or
`"fig"`, and reports exactly those files; on a non-zero exit nothing is
reported. -/
theorem C9_script_execution (uv rAvail : Bool) (rc : Int)
    (files : List GenFile) (output_dir : List String) (f : SourceFile) :
    ((generate_python_figure uv rc files output_dir f).envOutputDir =
      figureDir output_dir f) ∧
    (uv = false →
      (generate_python_figure uv rc files output_dir f).cwdUsed =
        some (figureDir output_dir f)) ∧
    (rc = 0 →
      (generate_python_figure uv rc files output_dir f).reported =
        scanGeneratedPython f.stem files) ∧
    (rc ≠ 0 →
      (generate_python_figure uv rc files output_dir f).reported = []) ∧
    (∀ gf : GenFile, gf ∈ scanGeneratedPython f.stem files ↔
      (gf ∈ files ∧ gf.ext ∈ (["png", "pdf", "svg", "eps"] : List String) ∧
        matchesFigurePattern f.stem gf.stem = true)) ∧
    (∀ stem : String, matchesFigurePattern f.stem stem = true ↔
      (strContainsSub (strToLower stem) (strToLower f.stem) = true ∨
        strStartsWith (strToLower stem) "figure" = true ∨
        strStartsWith (strToLower stem) "fig" = true)) ∧
    (∀ res, generate_r_figure rAvail rc files output_dir f = some res →
      res.cwdUsed = some (figureDir output_dir f) ∧
      res.envOutputDir = figureDir output_dir f ∧
      (rc = 0 → res.reported = scanGeneratedR f.stem files)) := by
  refine ⟨?_, ?_, ?_, ?_, ?_, ?_, ?_⟩
  · simp only [generate_python_figure]
    split <;> rfl
  · intro huv
    simp only [generate_python_figure, huv]
    split <;> rfl
  · intro hrc
    simp [generate_python_figure, hrc]
  · intro hrc
    simp [generate_python_figure, hrc]
  · intro gf
    unfold scanGeneratedPython
    constructor
    · intro hmem
      have h1 := List.mem_of_mem_filter hmem
      have hp := List.of_mem_filter hmem
      have he := List.of_mem_filter h1
      exact ⟨List.mem_of_mem_filter h1, by simpa using he, hp⟩
    · intro ⟨hmem, he, hp⟩
      apply List.mem_filter.mpr
      refine ⟨List.mem_filter.mpr ⟨hmem, by simpa using he⟩, hp⟩
  · intro stem
    unfold matchesFigurePattern
    simp [Bool.or_eq_true, or_assoc]
  · intro res hres
    simp only [generate_r_figure] at hres
    split at hres
    · simp at hres
    · split at hres
      · injection hres with h
        subst h
        refine ⟨rfl, rfl, ?_⟩
        intro hrc
        rename_i hrc'
        exact absurd hrc hrc'
      · injection hres with h
        subst h
        exact ⟨rfl, rfl, fun _ => rfl⟩

/-- Witness for C9 (amended) at a concrete run: `plot.py` exits 0 having
produced `plot_output.png` (matches, reported) and `notes.txt` (not a
figure extension, not reported). -/
theorem C9_script_execution_witness :
    (generate_python_figure false 0
        [{ subpath := [], stem := "plot_output", ext := "png" },
         { subpath := [], stem := "notes", ext := "txt" }] ["out"]
        { dir := ["FIGURES"], stem := "plot", ext := "py" }).envOutputDir =
      ["out", "plot"] ∧
    (generate_python_figure false 0
        [{ subpath := [], stem := "plot_output", ext := "png" },
         { subpath := [], stem := "notes", ext := "txt" }] ["out"]
        { dir := ["FIGURES"], stem := "plot", ext := "py" }).reported =
      [{ subpath := [], stem := "plot_output", ext := "png" }] := by
  have h := C9_script_execution false true 0
    [{ subpath := [], stem := "plot_output", ext := "png" },
     { subpath := [], stem := "notes", ext := "txt" }] ["out"]
    { dir := ["FIGURES"], stem := "plot", ext := "py" }
  refine ⟨h.1, ?_⟩
  rw [h.2.2.1 rfl]
  decide

/-- C7: on every `_get_or_create_session` call the opportunistic cleanup
removes from the session table exactly those sessions whose age exceeds the
session timeout or whose liveness probe fails, calling `cleanup()` on each
removed session; the timeout defaults to 300 seconds; aggressive-cleanup
mode sets it to 60 seconds and disables session reuse, after which
`_get_or_create_session` returns `None` and changes nothing. -/
theorem C7_expiry_cleanup (ins : Nat → InspectResult) (srf : Bool) (now : Nat)
    (m : DockerManager) (env : DockerEnv) (key image : String) :
    ((cleanup_expired_sessions ins srf now m).1.active_sessions =
      m.active_sessions.filter
        (fun p => decide (now - p.2.created_at ≤ m.session_timeout) &&
          (DockerSession.is_active ins p.2).1)) ∧
    ((cleanup_expired_sessions ins srf now m).2 =
      (m.active_sessions.filter
        (fun p => decide (now - p.2.created_at > m.session_timeout) ||
          !(DockerSession.is_active ins p.2).1)).map
        (fun p => (p.1, (DockerSession.cleanup srf p.2).2))) ∧
    ((DockerManager.init true).session_timeout = 300) ∧
    ((enable_aggressive_cleanup true m).session_timeout = 60) ∧
    ((enable_aggressive_cleanup true m).enable_session_reuse = false) ∧
    (get_or_create_session env srf key image
        (enable_aggressive_cleanup true m) =
      (none, enable_aggressive_cleanup true m)) := by
  refine ⟨cleanup_sessions_as_filter ins srf now m, ?_, rfl, rfl, rfl, ?_⟩
  · show (m.active_sessions.filter
        (fun p => (cleanupKeep ins now m.session_timeout p).isNone)).map _ = _
    congr 1
    apply List.filter_congr
    intro p _
    rw [cleanupKeep_eq_guard]
    by_cases hexp : now - p.2.created_at > m.session_timeout
    · simp [hexp, Nat.not_le.mpr hexp]
    · cases ha : (DockerSession.is_active ins p.2).1 <;>
        simp [hexp, ha, Nat.not_lt.mp hexp]
  · unfold get_or_create_session enable_aggressive_cleanup
    simp

/-- C8: a backend whose container commands all fail (inspect never reports a
running container; `docker run -d` fails) never escapes the session layer as
an exception: `is_active` returns `False`, `_get_or_create_session` returns
`None`, and `run_command` falls back to an ad hoc container. -/
theorem C8_backend_failure_fallback (env : DockerEnv) (srf : Bool)
    (s : DockerSession) (m : DockerManager) (key image : String)
    (hins : ∀ cid, env.inspect cid ≠ InspectResult.running)
    (hcre : env.create = CreateResult.fail) :
    ((DockerSession.is_active env.inspect s).1 = false) ∧
    ((get_or_create_session env srf key image m).1 = none) ∧
    ((run_command_mode env srf (some key) image m).1 = ExecMode.adHoc) := by
  have hact : ∀ t : DockerSession, (DockerSession.is_active env.inspect t).1 = false := by
    intro t
    unfold DockerSession.is_active
    cases hf : t.active_flag
    · simp
    · simp only [Bool.not_true, Bool.false_eq_true, if_false]
      cases hi : env.inspect t.container_id
      · exact absurd hi (hins t.container_id)
      · simp
      · simp
      · simp
  have hget : (get_or_create_session env srf key image m).1 = none := by
    unfold get_or_create_session
    cases hr : m.enable_session_reuse
    · simp [hr]
    · simp only [hr, Bool.not_true, Bool.false_eq_true, if_false]
      rw [show (cleanup_expired_sessions env.inspect srf env.now m).1.active_sessions.lookup key
          = none from ?hnone]
      · unfold createNewSession
        rw [hcre]
      case hnone =>
        rw [cleanup_sessions_as_filter]
        rw [lookup_eq_none_iff]
        intro p hp
        have := List.of_mem_filter hp
        rw [hact p.2] at this
        simp at this
  refine ⟨hact s, hget, ?_⟩
  rcases hr : get_or_create_session env srf key image m with ⟨o, m2⟩
  cases o with
  | none => simp [run_command_mode, hr]
  | some s2 =>
      rw [hr] at hget
      simp at hget

/-- Witness for C8: the all-failing backend on a one-session manager. -/
theorem C8_backend_failure_fallback_witness :
    ((DockerSession.is_active
        (fun _ => InspectResult.subprocessFail)
        { container_id := 7, image := "img", created_at := 0,
          active_flag := true }).1 = false) ∧
    ((get_or_create_session
        { inspect := fun _ => InspectResult.subprocessFail,
          create := CreateResult.fail, now := 50 } false "python-exec" "img"
        { enable_session_reuse := true, session_timeout := 300,
          active_sessions := [("python-exec",
            { container_id := 7, image := "img", created_at := 0,
              active_flag := true })] }).1 = none) ∧
    ((run_command_mode
        { inspect := fun _ => InspectResult.subprocessFail,
          create := CreateResult.fail, now := 50 } false
        (some "python-exec") "img"
        { enable_session_reuse := true, session_timeout := 300,
          active_sessions := [("python-exec",
            { container_id := 7, image := "img", created_at := 0,
              active_flag := true })] }).1 = ExecMode.adHoc) := by
  exact C8_backend_failure_fallback
    { inspect := fun _ => InspectResult.subprocessFail,
      create := CreateResult.fail, now := 50 } false
    { container_id := 7, image := "img", created_at := 0,
      active_flag := true }
    { enable_session_reuse := true, session_timeout := 300,
      active_sessions := [("python-exec",
        { container_id := 7, image := "img", created_at := 0,
          active_flag := true })] }
    "python-exec" "img" (fun _ h => by cases h) rfl

/-- The per-call cleanup filter of `_get_or_create_session` under
environment `env` and timeout `timeout`. -/
def keepCond (env : DockerEnv) (timeout : Nat)
    (p : String × DockerSession) : Bool :=
  decide (env.now - p.2.created_at ≤ timeout) &&
    (DockerSession.is_active env.inspect p.2).1

/-- The fresh `DockerSession` that `_get_or_create_session` builds after a
successful `docker run -d`. -/
def freshSession (cid : Nat) (image : String) (now : Nat) : DockerSession :=
  { container_id := cid, image := image, created_at := now,
    active_flag := true }

/-- When, after the opportunistic cleanup, no session is stored under the
key, `_get_or_create_session` (reuse enabled, `docker run` succeeding with
container id `cid`) stores and returns a fresh session created now. -/
theorem get_or_create_creates (env : DockerEnv) (srf : Bool)
    (key image : String) (m : DockerManager) (cid : Nat)
    (hreuse : m.enable_session_reuse = true)
    (hk : (m.active_sessions.filter
        (keepCond env m.session_timeout)).lookup key = none)
    (hc : env.create = CreateResult.ok cid) :
    get_or_create_session env srf key image m =
      (some (freshSession cid image env.now),
       { m with active_sessions :=
          ((m.active_sessions.filter (keepCond env m.session_timeout))
            ++ [(key, freshSession cid image env.now)]) }) := by
  unfold freshSession
  unfold get_or_create_session
  rw [hreuse]
  simp only [Bool.not_true, Bool.false_eq_true, if_false]
  have htab : (cleanup_expired_sessions env.inspect srf env.now m).1.active_sessions
      = m.active_sessions.filter (keepCond env m.session_timeout) := by
    rw [cleanup_sessions_as_filter]
    rfl
  rw [htab, hk]
  unfold createNewSession
  rw [hc]
  have hany : (m.active_sessions.filter
      (keepCond env m.session_timeout)).any (fun p => p.1 = key) = false :=
    any_key_eq_false_of_lookup_none hk
  simp only [dictInsert, hany, Bool.false_eq_true, if_false]
  have hrest : (cleanup_expired_sessions env.inspect srf env.now m).1 =
      { m with active_sessions :=
        m.active_sessions.filter (keepCond env m.session_timeout) } := by
    unfold cleanup_expired_sessions
    simp only
    rw [cleanupList_eq_filter]
    rfl
  rw [hrest]
  simp [hany, hreuse]

/-- When, after the opportunistic cleanup, the key's stored session is found
and its liveness probe passes, `_get_or_create_session` returns that very
session. -/
theorem get_or_create_reuses (env : DockerEnv) (srf : Bool)
    (key image : String) (m : DockerManager) (s : DockerSession)
    (hreuse : m.enable_session_reuse = true)
    (hfind : (m.active_sessions.filter
        (keepCond env m.session_timeout)).lookup key = some s)
    (halive : (DockerSession.is_active env.inspect s).1 = true) :
    (get_or_create_session env srf key image m).1 = some s := by
  unfold get_or_create_session
  rw [hreuse]
  simp only [Bool.not_true, Bool.false_eq_true, if_false]
  have htab : (cleanup_expired_sessions env.inspect srf env.now m).1.active_sessions
      = m.active_sessions.filter (keepCond env m.session_timeout) := by
    rw [cleanup_sessions_as_filter]
    rfl
  rw [htab, hfind]
  simp only [halive, if_true]
  rw [is_active_true_eq halive]

theorem lookup_append_self {α β : Type} [BEq α] [LawfulBEq α]
    {L : List (α × β)} {key : α} (s : β)
    (h : List.lookup key L = none) :
    List.lookup key (L ++ [(key, s)]) = some s := by
  rw [lookup_append_of_none _ h, List.lookup_cons]
  simp

/-- C1: with session reuse enabled and no session yet stored under the key,
a first `_get_or_create_session` call (whose `docker run -d` succeeds with
container id `cid`) creates and returns a fresh session; a second call made
while the backing container still passes the liveness probe and before the
session timeout elapses returns that very session; if instead the liveness
probe fails between the calls (container no longer running), the second
call removes the stale entry and returns a fresh session whose container id
differs, storing it under the key. -/
theorem C1_session_reuse (m : DockerManager) (key image : String)
    (srf : Bool) (env1 env2a env2b : DockerEnv) (cid cid2 : Nat)
    (hreuse : m.enable_session_reuse = true)
    (hk : m.active_sessions.lookup key = none)
    (hc1 : env1.create = CreateResult.ok cid)
    (ha_time : env2a.now ≤ env1.now + m.session_timeout)
    (ha_probe : env2a.inspect cid = InspectResult.running)
    (hb_time : env2b.now ≤ env1.now + m.session_timeout)
    (hb_probe : env2b.inspect cid = InspectResult.notRunning)
    (hc2 : env2b.create = CreateResult.ok cid2)
    (hne : cid2 ≠ cid) :
    ((get_or_create_session env1 srf key image m).1 =
      some (freshSession cid image env1.now)) ∧
    ((get_or_create_session env2a srf key image
        (get_or_create_session env1 srf key image m).2).1 =
      some (freshSession cid image env1.now)) ∧
    ((get_or_create_session env2b srf key image
        (get_or_create_session env1 srf key image m).2).1 =
      some (freshSession cid2 image env2b.now)) ∧
    ((freshSession cid2 image env2b.now).container_id ≠
      (freshSession cid image env1.now).container_id) ∧
    ((get_or_create_session env2b srf key image
        (get_or_create_session env1 srf key image m).2).2.active_sessions.lookup
        key = some (freshSession cid2 image env2b.now)) := by
  have hF1none : List.lookup key
      (m.active_sessions.filter (keepCond env1 m.session_timeout)) = none :=
    lookup_filter_none _ hk
  have h1 := get_or_create_creates env1 srf key image m cid hreuse hF1none hc1
  have hcondA : keepCond env2a m.session_timeout
      (key, freshSession cid image env1.now) = true := by
    unfold keepCond freshSession DockerSession.is_active
    have ht : env2a.now - env1.now ≤ m.session_timeout := by omega
    simp [ha_probe, ht]
  have hcondB : keepCond env2b m.session_timeout
      (key, freshSession cid image env1.now) = false := by
    unfold keepCond freshSession DockerSession.is_active
    simp [hb_probe]
  have hfindA : (((m.active_sessions.filter (keepCond env1 m.session_timeout))
      ++ [(key, freshSession cid image env1.now)]).filter
        (keepCond env2a m.session_timeout)).lookup key =
      some (freshSession cid image env1.now) := by
    rw [List.filter_append]
    rw [show List.filter (keepCond env2a m.session_timeout)
        [(key, freshSession cid image env1.now)] =
        [(key, freshSession cid image env1.now)] by simp [hcondA]]
    exact lookup_append_self _ (lookup_filter_none _ hF1none)
  have hnoneB : (((m.active_sessions.filter (keepCond env1 m.session_timeout))
      ++ [(key, freshSession cid image env1.now)]).filter
        (keepCond env2b m.session_timeout)).lookup key = none := by
    rw [List.filter_append]
    rw [show List.filter (keepCond env2b m.session_timeout)
        [(key, freshSession cid image env1.now)] = [] by simp [hcondB]]
    rw [List.append_nil]
    exact lookup_filter_none _ hF1none
  have haliveA : (DockerSession.is_active env2a.inspect
      (freshSession cid image env1.now)).1 = true := by
    unfold DockerSession.is_active freshSession
    simp [ha_probe]
  refine ⟨by rw [h1], ?_, ?_, by simp [freshSession, hne], ?_⟩
  · rw [h1]
    exact get_or_create_reuses env2a srf key image _
      (freshSession cid image env1.now) hreuse hfindA haliveA
  · rw [h1]
    have h2 := get_or_create_creates env2b srf key image
      { m with active_sessions :=
          ((m.active_sessions.filter (keepCond env1 m.session_timeout))
            ++ [(key, freshSession cid image env1.now)]) }
      cid2 hreuse hnoneB hc2
    rw [h2]
  · rw [h1]
    have h2 := get_or_create_creates env2b srf key image
      { m with active_sessions :=
          ((m.active_sessions.filter (keepCond env1 m.session_timeout))
            ++ [(key, freshSession cid image env1.now)]) }
      cid2 hreuse hnoneB hc2
    rw [h2]
    exact lookup_append_self _ hnoneB

/-- Witness for C1: fresh manager, key `"python-exec"`; creation returns
container 5; a probe-passing second call at `t = 100 ≤ 300` returns the
same session; a probe-failing second call returns a fresh session with
container 9 and stores it under the key. -/
theorem C1_session_reuse_witness :
    ((get_or_create_session
        { inspect := fun _ => InspectResult.running,
          create := CreateResult.ok 5, now := 0 } false "python-exec" "img"
        (DockerManager.init true)).1 = some (freshSession 5 "img" 0)) ∧
    ((get_or_create_session
        { inspect := fun _ => InspectResult.running,
          create := CreateResult.fail, now := 100 } false "python-exec" "img"
        (get_or_create_session
          { inspect := fun _ => InspectResult.running,
            create := CreateResult.ok 5, now := 0 } false "python-exec" "img"
          (DockerManager.init true)).2).1 = some (freshSession 5 "img" 0)) ∧
    ((get_or_create_session
        { inspect := fun _ => InspectResult.notRunning,
          create := CreateResult.ok 9, now := 100 } false "python-exec" "img"
        (get_or_create_session
          { inspect := fun _ => InspectResult.running,
            create := CreateResult.ok 5, now := 0 } false "python-exec" "img"
          (DockerManager.init true)).2).1 =
      some (freshSession 9 "img" 100)) ∧
    ((freshSession 9 "img" 100).container_id ≠
      (freshSession 5 "img" 0).container_id) := by
  have h := C1_session_reuse (DockerManager.init true) "python-exec" "img"
    false
    { inspect := fun _ => InspectResult.running,
      create := CreateResult.ok 5, now := 0 }
    { inspect := fun _ => InspectResult.running,
      create := CreateResult.fail, now := 100 }
    { inspect := fun _ => InspectResult.notRunning,
      create := CreateResult.ok 9, now := 100 }
    5 9 rfl rfl rfl (by decide) rfl (by decide) rfl rfl (by decide)
  exact ⟨h.1, h.2.1, h.2.2.1, h.2.2.2.1⟩

end RxivMaker
